import Mathlib

set_option maxRecDepth 10000

/-!
Verification of the OptionScope deployment script (`deploy.py`).

The script is CLI glue: it prints messages, reads interactive input, shells
out to platform command-line tools, talks to the Stripe API and writes one
configuration file.  We embed it as a pure state-passing computation:

* `St` carries the pending interactive-input lines, the trace of observable
  effects (`Event`s) emitted so far, and a `World` of oracles fixing what
  each external command and each Stripe API call would return in this run
  (plus the token that `secrets.token_urlsafe(32)` would produce).
* `M α := St → St × Except PyErr α`; an `Except.error` result models a
  Python exception propagating out of the translated code.  An uncaught
  error at top level corresponds to the process dying with a traceback
  (non-zero exit); an `Except.ok` result corresponds to a normal return.
* `subprocess.run(cmd, check=True)` raises `CalledProcessError` on a
  non-zero exit and `FileNotFoundError` when the executable is missing;
  both are modelled as `PyErr` values.
* `input()` pops the next pending line (an exhausted stream yields `""`,
  i.e. the operator pressing Enter).

Every `deploy.py` function is translated one-to-one below, keeping the
source names and the exact message strings, command argument vectors,
branch structure and dictionary insertion order.
-/

/-- Whitespace characters removed by Python `str.strip()` (ASCII range). -/
def isPySpace (c : Char) : Bool :=
  c == ' ' || c == '\t' || c == '\n' || c == '\r' || c == '\x0b' || c == '\x0c'

/-- Python `str.strip()`: drop leading and trailing whitespace. -/
def pystrip (s : String) : String :=
  String.mk (((s.data.dropWhile isPySpace).reverse.dropWhile isPySpace).reverse)

/-- Python `str.lower()` (ASCII letters). -/
def pylower (s : String) : String :=
  String.mk (s.data.map Char.toLower)

/-- Helper for `pytitle`: the Boolean records whether the previous character
was alphabetic. -/
def pytitleGo : Bool → List Char → List Char
  | _, [] => []
  | prevAlpha, c :: cs =>
    let c' := if c.isAlpha then (if prevAlpha then c.toLower else c.toUpper) else c
    c' :: pytitleGo c.isAlpha cs

/-- Python `str.title()` (ASCII letters): capitalise the first letter of each
alphabetic run, lowercase the rest. -/
def pytitle (s : String) : String :=
  String.mk (pytitleGo false s.data)

/-- Contiguous-subsequence test on character lists (Python `needle in hay`). -/
def seqIn (needle : List Char) : List Char → Bool
  | [] => needle.isEmpty
  | c :: cs => needle.isPrefixOf (c :: cs) || seqIn needle cs

/-- Python substring containment `needle in hay`. -/
def strIn (needle hay : String) : Bool :=
  seqIn needle.data hay.data

/-- Python `f-string` rendering of a value that may be `None`. -/
def optStr : Option String → String
  | none => "None"
  | some u => u

/-- Python truthiness of an optional string (`None` and `""` are falsy). -/
def optTruthy : Option String → Bool
  | none => false
  | some u => u != ""

/-- Result of a completed `subprocess.run` call. -/
structure CmdResult where
  returncode : Int
  stdout : String
  stderr : String
deriving DecidableEq, Repr

/-- What the operating system does with one command invocation. -/
inductive ProcOutcome
  | notFound
  | ran (code : Int) (stdout stderr : String)
deriving DecidableEq, Repr

/-- One Stripe API request issued by `setup_stripe_products`. -/
inductive StripeCall
  | productCreate (name description : String)
  | priceCreate (productId : String) (unitAmount : Nat) (currency interval : String)
deriving DecidableEq, Repr

/-- Observable effects of the script, in order of occurrence. -/
inductive Event
  | print (line : String)
  | prompt (msg : String)
  | run (cmd : List String) (stdinData : Option String)
  | writeFile (path content : String)
  | stripe (call : StripeCall)
deriving DecidableEq, Repr

/-- Python exceptions that the translated code can raise. -/
inductive PyErr
  | calledProcessError (cmd : List String) (code : Int)
  | fileNotFoundError (cmd : List String)
  | stripeError (msg : String)
deriving DecidableEq, Repr

/-- The fixed external world of one run: what each subprocess command would
do, what each Stripe request would return (an object id, or an error
message), and the token `secrets.token_urlsafe(32)` would generate. -/
structure World where
  oracle : List String → ProcOutcome
  stripeOracle : StripeCall → Except String String
  token : String

/-- Program state: the world, the pending interactive-input lines, and the
trace of effects emitted so far. -/
structure St where
  world : World
  stdin : List String
  events : List Event

/-- The script monad: state passing plus Python exceptions. -/
def M (α : Type) : Type :=
  St → St × Except PyErr α

instance : Monad M where
  pure a := fun s => (s, Except.ok a)
  bind m f := fun s =>
    match m s with
    | (s', Except.ok a) => f a s'
    | (s', Except.error e) => (s', Except.error e)

/-- Python `print(line)`. -/
def pyPrint (line : String) : M Unit :=
  fun s => ({s with events := s.events ++ [Event.print line]}, Except.ok ())

/-- Python `input(msg)`: records the prompt and pops the next pending line. -/
def pyInput (msg : String) : M String :=
  fun s =>
    ({s with events := s.events ++ [Event.prompt msg], stdin := s.stdin.tail},
     Except.ok (s.stdin.headD ""))

/-- Python `subprocess.run(cmd, input=inp, check=check)`: records the
invocation, then consults the oracle.  A missing executable raises
`FileNotFoundError`; with `check` set, a non-zero exit raises
`CalledProcessError`. -/
def subprocessRun (cmd : List String) (inp : Option String) (check : Bool) : M CmdResult :=
  fun s =>
    let s' : St := {s with events := s.events ++ [Event.run cmd inp]}
    match s.world.oracle cmd with
    | ProcOutcome.notFound => (s', Except.error (PyErr.fileNotFoundError cmd))
    | ProcOutcome.ran code out err =>
      if check = true ∧ code ≠ 0 then
        (s', Except.error (PyErr.calledProcessError cmd code))
      else
        (s', Except.ok ⟨code, out, err⟩)

/-- Python `try`: run the body and reify the outcome (`except` handling). -/
def mtryE {α : Type} (body : M α) : M (Except PyErr α) :=
  fun s =>
    match body s with
    | (s', Except.ok a) => (s', Except.ok (Except.ok a))
    | (s', Except.error e) => (s', Except.ok (Except.error e))

/-- One Stripe API request: records the call, then consults the Stripe
oracle; a provider error raises an exception. -/
def stripeRequest (c : StripeCall) : M String :=
  fun s =>
    let s' : St := {s with events := s.events ++ [Event.stripe c]}
    match s.world.stripeOracle c with
    | Except.ok objId => (s', Except.ok objId)
    | Except.error m => (s', Except.error (PyErr.stripeError m))

/-- Python `str(e)` for the exceptions the script can raise. -/
def errText : PyErr → String
  | PyErr.stripeError m => m
  | PyErr.calledProcessError cmd code =>
    "Command " ++ String.intercalate " " cmd ++ " returned non-zero exit status "
      ++ toString code
  | PyErr.fileNotFoundError cmd =>
    "No such file or directory: " ++ String.intercalate " " cmd

/-!
JSON values and serialisation, modelling the `json.dump(config, f, indent=2)`
call in `deploy_render`, together with a parser used to state that the
generated file is well-formed JSON.
-/

/-- JSON values (the fragment `deploy_render` uses: strings, booleans,
arrays, objects). -/
inductive Jval
  | str (s : String)
  | bool (b : Bool)
  | arr (xs : List Jval)
  | obj (fields : List (String × Jval))

/-- Escape a string for JSON output (backslash and double quote). -/
def jsonEscape (s : String) : String :=
  String.mk (s.data.foldr
    (fun c acc =>
      if c == '\\' then '\\' :: '\\' :: acc
      else if c == '"' then '\\' :: '"' :: acc
      else c :: acc) [])

/-- A run of `n` spaces. -/
def spaces (n : Nat) : String :=
  String.mk (List.replicate n ' ')

mutual

/-- Serialise a JSON value the way `json.dump(..., indent=2)` does. -/
def jsonDump : Jval → Nat → String
  | Jval.str s, _ => "\"" ++ jsonEscape s ++ "\""
  | Jval.bool b, _ => if b then "true" else "false"
  | Jval.arr xs, ind => "[\n" ++ jsonDumpItems xs (ind + 2) ++ "\n" ++ spaces ind ++ "]"
  | Jval.obj fs, ind => "\x7b\n" ++ jsonDumpFields fs (ind + 2) ++ "\n" ++ spaces ind ++ "\x7d"

/-- Serialise the elements of a JSON array, indented, comma-separated. -/
def jsonDumpItems : List Jval → Nat → String
  | [], _ => ""
  | [x], ind => spaces ind ++ jsonDump x ind
  | x :: y :: xs, ind =>
    spaces ind ++ jsonDump x ind ++ ",\n" ++ jsonDumpItems (y :: xs) ind

/-- Serialise the fields of a JSON object, indented, comma-separated. -/
def jsonDumpFields : List (String × Jval) → Nat → String
  | [], _ => ""
  | [(k, v)], ind =>
    spaces ind ++ "\"" ++ jsonEscape k ++ "\": " ++ jsonDump v ind
  | (k, v) :: f :: fs, ind =>
    spaces ind ++ "\"" ++ jsonEscape k ++ "\": " ++ jsonDump v ind ++ ",\n"
      ++ jsonDumpFields (f :: fs) ind

end

/-- The character `U+007B` (opening curly bracket). -/
def braceOpen : Char := Char.ofNat 123

/-- The character `U+007D` (closing curly bracket). -/
def braceClose : Char := Char.ofNat 125

/-- Skip JSON whitespace. -/
def skipWs : List Char → List Char
  | [] => []
  | c :: cs =>
    if c == ' ' || c == '\t' || c == '\n' || c == '\r' then skipWs cs else c :: cs

/-- Parse the body of a JSON string after the opening quote; returns the
content and the rest of the input. -/
def parseStrBody : Nat → List Char → Option (List Char × List Char)
  | 0, _ => none
  | _ + 1, [] => none
  | fuel + 1, c :: rest =>
    if c == '"' then some ([], rest)
    else if c == '\\' then
      match rest with
      | d :: ds =>
        match parseStrBody fuel ds with
        | some (b, r) => some (d :: b, r)
        | none => none
      | [] => none
    else
      match parseStrBody fuel rest with
      | some (b, r) => some (c :: b, r)
      | none => none

mutual

/-- Recursive-descent JSON parser (fuelled); returns the value and the
remaining input. -/
def parseJ : Nat → List Char → Option (Jval × List Char)
  | 0, _ => none
  | fuel + 1, cs =>
    match skipWs cs with
    | [] => none
    | c :: rest =>
      if c == '"' then
        match parseStrBody fuel rest with
        | some (b, r) => some (Jval.str (String.mk b), r)
        | none => none
      else if c == '[' then parseElems fuel rest
      else if c == braceOpen then parseFields fuel rest
      else
        match c :: rest with
        | 't' :: 'r' :: 'u' :: 'e' :: r => some (Jval.bool true, r)
        | 'f' :: 'a' :: 'l' :: 's' :: 'e' :: r => some (Jval.bool false, r)
        | _ => none

/-- Parse array elements after the opening square bracket. -/
def parseElems : Nat → List Char → Option (Jval × List Char)
  | 0, _ => none
  | fuel + 1, cs =>
    match skipWs cs with
    | [] => none
    | c :: rest =>
      if c == ']' then some (Jval.arr [], rest)
      else
        match parseJ fuel (c :: rest) with
        | some (j, r1) => parseElemsTail fuel [j] r1
        | none => none

/-- Parse the remaining array elements after the first one. -/
def parseElemsTail : Nat → List Jval → List Char → Option (Jval × List Char)
  | 0, _, _ => none
  | fuel + 1, acc, cs =>
    match skipWs cs with
    | [] => none
    | c :: rest =>
      if c == ']' then some (Jval.arr acc, rest)
      else if c == ',' then
        match parseJ fuel rest with
        | some (j, r1) => parseElemsTail fuel (acc ++ [j]) r1
        | none => none
      else none

/-- Parse object fields after the opening curly bracket. -/
def parseFields : Nat → List Char → Option (Jval × List Char)
  | 0, _ => none
  | fuel + 1, cs =>
    match skipWs cs with
    | [] => none
    | c :: rest =>
      if c == braceClose then some (Jval.obj [], rest)
      else
        match parseOneField fuel (c :: rest) with
        | some (kv, r1) => parseFieldsTail fuel [kv] r1
        | none => none

/-- Parse one `"key": value` pair. -/
def parseOneField : Nat → List Char → Option ((String × Jval) × List Char)
  | 0, _ => none
  | fuel + 1, cs =>
    match skipWs cs with
    | [] => none
    | c :: rest =>
      if c == '"' then
        match parseStrBody fuel rest with
        | some (k, r1) =>
          match skipWs r1 with
          | ':' :: r2 =>
            match parseJ fuel r2 with
            | some (v, r3) => some ((String.mk k, v), r3)
            | none => none
          | _ => none
        | none => none
      else none

/-- Parse the remaining object fields after the first one. -/
def parseFieldsTail : Nat → List (String × Jval) → List Char → Option (Jval × List Char)
  | 0, _, _ => none
  | fuel + 1, acc, cs =>
    match skipWs cs with
    | [] => none
    | c :: rest =>
      if c == braceClose then some (Jval.obj acc, rest)
      else if c == ',' then
        match parseOneField fuel rest with
        | some (kv, r1) => parseFieldsTail fuel (acc ++ [kv]) r1
        | none => none
      else none

end

/-- The `render_config` dictionary built by `deploy_render` (source lines
145-159), in declaration order. -/
def renderConfig : Jval :=
  Jval.obj [("services", Jval.arr [Jval.obj [
    ("type", Jval.str "web"),
    ("name", Jval.str "optionscope"),
    ("env", Jval.str "python"),
    ("buildCommand", Jval.str "pip install -r requirements.txt"),
    ("startCommand", Jval.str "gunicorn app:server"),
    ("envVars", Jval.arr [
      Jval.obj [("key", Jval.str "FLASK_ENV"), ("value", Jval.str "production")],
      Jval.obj [("key", Jval.str "SECRET_KEY"), ("generateValue", Jval.bool true)]])]])]

/-- The environment-variable names declared in the `envVars` section of the
first service of a render configuration. -/
def envKeysOf (j : Jval) : List String :=
  match j with
  | Jval.obj fs =>
    match List.lookup "services" fs with
    | some (Jval.arr (first :: _)) =>
      match first with
      | Jval.obj sf =>
        match List.lookup "envVars" sf with
        | some (Jval.arr items) =>
          items.filterMap fun it =>
            match it with
            | Jval.obj ifs =>
              match List.lookup "key" ifs with
              | some (Jval.str k) => some k
              | _ => none
            | _ => none
        | _ => []
      | _ => []
    | _ => []
  | _ => []

/-!
Translations of the `deploy.py` functions (source line numbers in the
doc comments).
-/

/-- Translation of `OptionScopeDeployer.generate_secret_key` (lines 199-202): returns this
run's `secrets.token_urlsafe(32)` value. -/
def generate_secret_key : M String :=
  fun s => (s, Except.ok s.world.token)

/-- The dictionary assembly of `get_production_env_vars` (lines 170-195),
on the already-stripped prompt answers: the five unconditional entries in
insertion order, then the two optional market-data entries, each added only
when its (stripped) answer is non-empty. -/
def envListOf (tok sp ss sw av iex : String) : List (String × String) :=
  let base : List (String × String) :=
    [("FLASK_ENV", "production"),
     ("SECRET_KEY", tok),
     ("STRIPE_PUBLISHABLE_KEY", sp),
     ("STRIPE_SECRET_KEY", ss),
     ("STRIPE_WEBHOOK_SECRET", sw)]
  let withAlpha := if av ≠ "" then base ++ [("ALPHA_VANTAGE_API_KEY", av)] else base
  if iex ≠ "" then withAlpha ++ [("IEX_API_KEY", iex)] else withAlpha

/-- Translation of `OptionScopeDeployer.get_production_env_vars` (lines 168-197): prompts
for the Stripe keys and the optional market-data keys and assembles the
environment mapping (via `envListOf`) in dictionary insertion order. -/
def get_production_env_vars : M (List (String × String)) := do
  pyPrint "\n💰 Setting up monetization (Stripe)..."
  pyPrint "Get your Stripe keys from: https://dashboard.stripe.com/apikeys"
  let stripe_publishable := pystrip (← pyInput "Stripe Publishable Key (pk_live_...): ")
  let stripe_secret := pystrip (← pyInput "Stripe Secret Key (sk_live_...): ")
  let stripe_webhook := pystrip (← pyInput "Stripe Webhook Secret (whsec_...): ")
  let secretKey ← generate_secret_key
  pyPrint "\n📊 Optional: Market Data API Keys (press Enter to skip)"
  let alpha_vantage := pystrip (← pyInput "Alpha Vantage API Key: ")
  let iex_key := pystrip (← pyInput "IEX Cloud API Key: ")
  pure (envListOf secretKey stripe_publishable stripe_secret stripe_webhook alpha_vantage iex_key)

/-- The environment-variable push loop of `deploy_vercel` (lines 42-44):
`vercel env add KEY` with the value piped on stdin, skipping falsy values
and the placeholder. -/
def pushEnvVercel : List (String × String) → M Unit
  | [] => pure ()
  | (key, value) :: rest => do
    if value ≠ "" ∧ value ≠ "your-key-here" then
      let _ ← subprocessRun ["vercel", "env", "add", key] (some value) true
      pushEnvVercel rest
    else
      pushEnvVercel rest

/-- The environment-variable push loop of `deploy_heroku` (lines 91-93):
`heroku config:set KEY=VALUE`, skipping falsy values and the placeholder. -/
def pushEnvHeroku : List (String × String) → M Unit
  | [] => pure ()
  | (key, value) :: rest => do
    if value ≠ "" ∧ value ≠ "your-key-here" then
      let _ ← subprocessRun ["heroku", "config:set", key ++ "=" ++ value] none true
      pushEnvHeroku rest
    else
      pushEnvHeroku rest

/-- The environment-variable push loop of `deploy_railway` (lines 129-131):
`railway variables set KEY=VALUE`, skipping falsy values and the
placeholder. -/
def pushEnvRailway : List (String × String) → M Unit
  | [] => pure ()
  | (key, value) :: rest => do
    if value ≠ "" ∧ value ≠ "your-key-here" then
      let _ ← subprocessRun ["railway", "variables", "set", key ++ "=" ++ value] none true
      pushEnvRailway rest
    else
      pushEnvRailway rest

/-- URL extraction of `deploy_vercel` (lines 52-57): the first stdout line
containing both `https://` and `vercel.app`, stripped. -/
def findVercelUrl (out : String) : Option String :=
  ((out.splitOn "\n").find? (fun line => strIn "https://" line && strIn "vercel.app" line)).map
    pystrip

/-- URL extraction of `deploy_heroku` (lines 102-106): the text after
`Web URL:` on the first stdout line containing it, stripped. -/
def findHerokuUrl (out : String) : Option String :=
  ((out.splitOn "\n").find? (fun line => strIn "Web URL:" line)).map
    (fun line => pystrip ((line.splitOn "Web URL:").getD 1 ""))

/-- Body of `deploy_vercel` after the CLI check (lines 36-66): copy the
requirements file, push the environment variables, run `vercel --prod` and
inspect its exit code. -/
def deploy_vercel_rest : M (Option String) := do
  let _ ← subprocessRun ["cp", "requirements-vercel.txt", "requirements.txt"] none true
  let env_vars ← get_production_env_vars
  pyPrint "📝 Setting up environment variables..."
  pushEnvVercel env_vars
  pyPrint "🚀 Deploying to Vercel..."
  let result ← subprocessRun ["vercel", "--prod"] none false
  if result.returncode = 0 then do
    let url := findVercelUrl result.stdout
    pyPrint "✅ Deployment successful!"
    pyPrint ("🌐 Your OptionScope is live at: " ++ optStr url)
    pyPrint ("💰 Set up Stripe webhooks at: " ++ optStr url ++ "/auth/webhook/stripe")
    pure url
  else do
    pyPrint ("❌ Deployment failed: " ++ result.stderr)
    pure none

/-- Translation of `OptionScopeDeployer.deploy_vercel` (lines 24-66): ensure the Vercel CLI
is present (installing it on failure of the version check), then run
`deploy_vercel_rest`. -/
def deploy_vercel : M (Option String) := do
  pyPrint "🚀 Deploying OptionScope to Vercel..."
  match ← mtryE (do let _ ← subprocessRun ["vercel", "--version"] none true; pure ()) with
  | Except.ok _ => pure ()
  | Except.error _ => do
    pyPrint "❌ Vercel CLI not found. Installing..."
    let _ ← subprocessRun ["npm", "install", "-g", "vercel"] none true
    pure ()
  deploy_vercel_rest

/-- Translation of `OptionScopeDeployer.deploy_heroku` (lines 68-110). -/
def deploy_heroku : M (Option String) := do
  pyPrint "🚀 Deploying OptionScope to Heroku..."
  match ← mtryE (do let _ ← subprocessRun ["heroku", "--version"] none true; pure ()) with
  | Except.error _ => do
    pyPrint "❌ Heroku CLI not found. Please install it first."
    pure none
  | Except.ok _ => do
    let app_name := pystrip (← pyInput "Enter Heroku app name (or press Enter for auto-generated): ")
    if app_name ≠ "" then do
      let _ ← subprocessRun ["heroku", "create", app_name] none true
      pure ()
    else do
      let _ ← subprocessRun ["heroku", "create"] none true
      pure ()
    let _ ← subprocessRun ["heroku", "addons:create", "heroku-postgresql:hobby-dev"] none true
    let env_vars ← get_production_env_vars
    pushEnvHeroku env_vars
    let _ ← subprocessRun ["git", "add", "."] none true
    let _ ← subprocessRun ["git", "commit", "-m", "Deploy OptionScope"] none true
    let _ ← subprocessRun ["git", "push", "heroku", "main"] none true
    let result ← subprocessRun ["heroku", "info"] none false
    let url := findHerokuUrl result.stdout
    pyPrint "✅ Deployment successful!"
    pyPrint ("🌐 Your OptionScope is live at: " ++ optStr url)
    pure url

/-- Translation of `OptionScopeDeployer.deploy_railway` (lines 112-138). -/
def deploy_railway : M (Option String) := do
  pyPrint "🚀 Deploying OptionScope to Railway..."
  match ← mtryE (do let _ ← subprocessRun ["railway", "--version"] none true; pure ()) with
  | Except.ok _ => pure ()
  | Except.error _ => do
    pyPrint "❌ Railway CLI not found. Installing..."
    let _ ← subprocessRun ["npm", "install", "-g", "@railway/cli"] none true
    pure ()
  let _ ← subprocessRun ["railway", "login"] none true
  let _ ← subprocessRun ["railway", "init"] none true
  let env_vars ← get_production_env_vars
  pushEnvRailway env_vars
  let _ ← subprocessRun ["railway", "up"] none true
  pyPrint "✅ Deployment successful!"
  pyPrint "🌐 Check Railway dashboard for your app URL"
  pure (some "Check Railway dashboard")

/-- Python `open(path, 'w')` followed by writing `content`: records the file
write. -/
def pyWriteFile (path content : String) : M Unit :=
  fun s => ({s with events := s.events ++ [Event.writeFile path content]}, Except.ok ())

/-- Translation of `OptionScopeDeployer.deploy_render` (lines 140-166): writes
`render.yaml` (the `json.dump` of `renderConfig` with indent 2) and reports
that manual setup is required. -/
def deploy_render : M (Option String) := do
  pyPrint "🚀 Setting up Render deployment..."
  pyWriteFile "render.yaml" (jsonDump renderConfig 0)
  pyPrint "✅ render.yaml created!"
  pyPrint "🌐 Connect your GitHub repo to Render dashboard to deploy"
  pure (some "Manual setup required")

/-- Translation of `OptionScopeDeployer.setup_stripe_products` (lines 204-267). -/
def setup_stripe_products : M Unit := do
  pyPrint "\n💳 Setting up Stripe products..."
  let stripe_secret := pystrip (← pyInput "Enter your Stripe Secret Key: ")
  if stripe_secret = "" then do
    pyPrint "⚠️  Skipping Stripe setup. You can do this later in Stripe Dashboard."
    pure ()
  else do
    match ← mtryE (do
      let pro_product ← stripeRequest (StripeCall.productCreate "OptionScope Pro"
        "Advanced options trading analytics for serious traders")
      let pro_monthly ← stripeRequest (StripeCall.priceCreate pro_product 2999 "usd" "month")
      let pro_yearly ← stripeRequest (StripeCall.priceCreate pro_product 29999 "usd" "year")
      let enterprise_product ← stripeRequest (StripeCall.productCreate "OptionScope Enterprise"
        "Full-featured solution for institutions")
      let enterprise_monthly ← stripeRequest (StripeCall.priceCreate enterprise_product 9999 "usd" "month")
      let enterprise_yearly ← stripeRequest (StripeCall.priceCreate enterprise_product 99999 "usd" "year")
      pyPrint "✅ Stripe products created successfully!"
      pyPrint "📝 Add these to your environment variables:"
      pyPrint ("STRIPE_PRO_MONTHLY=" ++ pro_monthly)
      pyPrint ("STRIPE_PRO_YEARLY=" ++ pro_yearly)
      pyPrint ("STRIPE_ENTERPRISE_MONTHLY=" ++ enterprise_monthly)
      pyPrint ("STRIPE_ENTERPRISE_YEARLY=" ++ enterprise_yearly)) with
    | Except.ok _ => pure ()
    | Except.error e => pyPrint ("❌ Error setting up Stripe: " ++ errText e)

/-- The `platforms` table built in `OptionScopeDeployer.__init__`
(lines 17-22), in insertion order. -/
def platformsTable : List (String × M (Option String)) :=
  [("vercel", deploy_vercel),
   ("heroku", deploy_heroku),
   ("railway", deploy_railway),
   ("render", deploy_render)]

/-- The `'='*50` separator line printed by `deploy`. -/
def eqLine : String :=
  String.mk (List.replicate 50 '=')

/-- The tail of `OptionScopeDeployer.deploy` (lines 287-307): the summary
printed when the selected routine returned a truthy URL. -/
def deployAfter (url : Option String) : M Unit := do
  match url with
  | some u =>
    if u ≠ "" then do
      pyPrint "\n🎉 Deployment Complete!"
      pyPrint eqLine
      pyPrint ("🌐 Live URL: " ++ u)
      pyPrint ("💰 Pricing Page: " ++ u ++ "/pricing")
      pyPrint ("📊 Dashboard: " ++ u ++ "/dashboard")
      pyPrint ("🔐 Admin: " ++ u ++ "/auth/profile")
      pyPrint "\n📋 Next Steps:"
      pyPrint "1. Set up your Stripe webhook endpoint"
      pyPrint "2. Configure your domain (optional)"
      pyPrint "3. Set up monitoring and analytics"
      pyPrint "4. Test the payment flow"
      pyPrint "5. Launch your marketing campaign!"
      pyPrint "\n💡 Monetization Tips:"
      pyPrint "• Start with freemium model to build user base"
      pyPrint "• Offer 14-day free trial for paid plans"
      pyPrint "• Add usage-based pricing for API calls"
      pyPrint "• Create enterprise features for institutions"
      pyPrint "• Consider affiliate/referral program"
    else pure ()
  | none => pure ()

/-- Translation of `OptionScopeDeployer.deploy` (lines 269-307): dispatch on the platform
name, optionally set up Stripe products, run the selected routine, then
print the summary for a truthy URL. -/
def deploy (platform : String) : M Unit := do
  pyPrint ("🚀 OptionScope Deployment to " ++ pytitle platform)
  pyPrint eqLine
  match List.lookup platform platformsTable with
  | none => do
    pyPrint ("❌ Unsupported platform: " ++ platform)
    pyPrint ("Supported platforms: " ++ String.intercalate ", " (platformsTable.map Prod.fst))
  | some routine => do
    let setup_stripe := pylower (pystrip (← pyInput "Set up Stripe products? (y/N): "))
    if setup_stripe = "y" then setup_stripe_products
    routine >>= deployAfter

/-- The `1`-`4` menu table of `main` (line 321). -/
def menuTable : List (String × String) :=
  [("1", "vercel"), ("2", "heroku"), ("3", "railway"), ("4", "render")]

/-- Menu selection of `main` (lines 320-322): strip the entered choice,
look it up, default to `vercel`. -/
def menuSelect (choice : String) : String :=
  (List.lookup (pystrip choice) menuTable).getD "vercel"

/-- Translation of `main` (lines 309-325): a command-line argument (lowercased) or the
interactive menu chooses the platform; then `deploy` runs. -/
def pymain (argv : List String) : M Unit := do
  let platform ←
    if argv.length > 1 then
      pure (pylower (argv.getD 1 ""))
    else do
      pyPrint "🚀 OptionScope Deployment"
      pyPrint "Choose deployment platform:"
      pyPrint "1. Vercel (Recommended - Free tier)"
      pyPrint "2. Heroku (Full-stack)"
      pyPrint "3. Railway (Modern)"
      pyPrint "4. Render (Simple)"
      let choice ← pyInput "Enter choice (1-4): "
      pure (menuSelect choice)
  deploy platform

/-!
Unfolding lemmas used to execute the embedded program symbolically.
-/

theorem M_bind_apply {α β : Type} (m : M α) (f : α → M β) (s : St) :
    (m >>= f) s =
      match m s with
      | (s', Except.ok a) => f a s'
      | (s', Except.error e) => (s', Except.error e) := rfl

theorem M_pure_apply {α : Type} (a : α) (s : St) :
    (pure a : M α) s = (s, Except.ok a) := rfl

theorem pyPrint_apply (line : String) (s : St) :
    pyPrint line s = ({s with events := s.events ++ [Event.print line]}, Except.ok ()) := rfl

theorem pyInput_apply (msg : String) (s : St) :
    pyInput msg s =
      ({s with events := s.events ++ [Event.prompt msg], stdin := s.stdin.tail},
       Except.ok (s.stdin.headD "")) := rfl

theorem generate_secret_key_apply (s : St) :
    generate_secret_key s = (s, Except.ok s.world.token) := rfl

theorem mtryE_apply {α : Type} (body : M α) (s : St) :
    mtryE body s =
      match body s with
      | (s', Except.ok a) => (s', Except.ok (Except.ok a))
      | (s', Except.error e) => (s', Except.ok (Except.error e)) := rfl

theorem subprocessRun_apply (cmd : List String) (inp : Option String) (check : Bool) (s : St) :
    subprocessRun cmd inp check s =
      match s.world.oracle cmd with
      | ProcOutcome.notFound =>
        ({s with events := s.events ++ [Event.run cmd inp]},
         Except.error (PyErr.fileNotFoundError cmd))
      | ProcOutcome.ran code out err =>
        if check = true ∧ code ≠ 0 then
          ({s with events := s.events ++ [Event.run cmd inp]},
           Except.error (PyErr.calledProcessError cmd code))
        else
          ({s with events := s.events ++ [Event.run cmd inp]}, Except.ok ⟨code, out, err⟩) := by
  unfold subprocessRun
  cases s.world.oracle cmd <;> rfl

theorem stripeRequest_apply (c : StripeCall) (s : St) :
    stripeRequest c s =
      match s.world.stripeOracle c with
      | Except.ok objId =>
        ({s with events := s.events ++ [Event.stripe c]}, Except.ok objId)
      | Except.error m =>
        ({s with events := s.events ++ [Event.stripe c]},
         Except.error (PyErr.stripeError m)) := by
  unfold stripeRequest
  cases s.world.stripeOracle c <;> rfl

/-!
Step lemmas and program-level lemmas used by the claim theorems.
-/

theorem pyPrint_step {β : Type} (line : String) (f : Unit → M β) (s : St) :
    (pyPrint line >>= f) s = f () {s with events := s.events ++ [Event.print line]} := rfl

theorem pyInput_step {β : Type} (msg : String) (f : String → M β) (s : St) :
    (pyInput msg >>= f) s =
      f (s.stdin.headD "") {s with events := s.events ++ [Event.prompt msg], stdin := s.stdin.tail} := rfl

theorem pure_bind_step {α β : Type} (a : α) (f : α → M β) (s : St) :
    ((pure a : M α) >>= f) s = f a s := rfl

theorem subprocessRun_checked_step {β : Type} (cmd : List String) (inp : Option String)
    (f : CmdResult → M β) (s : St) :
    (subprocessRun cmd inp true >>= f) s =
      match s.world.oracle cmd with
      | ProcOutcome.notFound =>
        ({s with events := s.events ++ [Event.run cmd inp]},
         Except.error (PyErr.fileNotFoundError cmd))
      | ProcOutcome.ran code out err =>
        if code = 0 then
          f ⟨code, out, err⟩ {s with events := s.events ++ [Event.run cmd inp]}
        else
          ({s with events := s.events ++ [Event.run cmd inp]},
           Except.error (PyErr.calledProcessError cmd code)) := by
  rw [M_bind_apply, subprocessRun_apply]
  cases s.world.oracle cmd with
  | notFound => rfl
  | ran code out err =>
    by_cases hc : code = 0
    · subst hc
      simp
    · simp [hc]

theorem subprocessRun_unchecked_step {β : Type} (cmd : List String) (inp : Option String)
    (f : CmdResult → M β) (s : St) :
    (subprocessRun cmd inp false >>= f) s =
      match s.world.oracle cmd with
      | ProcOutcome.notFound =>
        ({s with events := s.events ++ [Event.run cmd inp]},
         Except.error (PyErr.fileNotFoundError cmd))
      | ProcOutcome.ran code out err =>
        f ⟨code, out, err⟩ {s with events := s.events ++ [Event.run cmd inp]} := by
  rw [M_bind_apply, subprocessRun_apply]
  cases s.world.oracle cmd with
  | notFound => rfl
  | ran code out err => simp

theorem stripeRequest_step {β : Type} (c : StripeCall) (f : String → M β) (s : St) :
    (stripeRequest c >>= f) s =
      match s.world.stripeOracle c with
      | Except.ok objId => f objId {s with events := s.events ++ [Event.stripe c]}
      | Except.error m =>
        ({s with events := s.events ++ [Event.stripe c]},
         Except.error (PyErr.stripeError m)) := by
  rw [M_bind_apply, stripeRequest_apply]
  cases s.world.stripeOracle c <;> rfl

theorem mtryE_checkedRun_step {β : Type} (cmd : List String) (inp : Option String)
    (f : Except PyErr Unit → M β) (s : St) :
    ((mtryE (do let _ ← subprocessRun cmd inp true; pure ())) >>= f) s =
      match s.world.oracle cmd with
      | ProcOutcome.notFound =>
        f (Except.error (PyErr.fileNotFoundError cmd))
          {s with events := s.events ++ [Event.run cmd inp]}
      | ProcOutcome.ran code out err =>
        if code = 0 then
          f (Except.ok ()) {s with events := s.events ++ [Event.run cmd inp]}
        else
          f (Except.error (PyErr.calledProcessError cmd code))
            {s with events := s.events ++ [Event.run cmd inp]} := by
  rw [M_bind_apply, mtryE_apply, M_bind_apply, subprocessRun_apply]
  cases s.world.oracle cmd with
  | notFound => rfl
  | ran code out err =>
    by_cases hc : code = 0
    · subst hc
      simp
    · simp [hc]

theorem pushEnvVercel_run (kvs : List (String × String)) (s : St) :
    (pushEnvVercel kvs s).1.world = s.world ∧
    (pushEnvVercel kvs s).1.stdin = s.stdin ∧
    ∃ es, (pushEnvVercel kvs s).1.events = s.events ++ es ∧
      ∀ e ∈ es, ∃ k v, e = Event.run ["vercel", "env", "add", k] (some v) ∧
        v ≠ "" ∧ v ≠ "your-key-here" := by
  induction kvs generalizing s with
  | nil =>
    exact ⟨rfl, rfl, [], by simp [pushEnvVercel, M_pure_apply], by simp⟩
  | cons kv rest ih =>
    obtain ⟨k, v⟩ := kv
    by_cases hv : v ≠ "" ∧ v ≠ "your-key-here"
    · simp only [pushEnvVercel, if_pos hv]
      rw [subprocessRun_checked_step]
      split
      · refine ⟨rfl, rfl, [Event.run ["vercel", "env", "add", k] (some v)], by simp, ?_⟩
        intro e he
        rw [List.mem_singleton] at he
        subst he
        exact ⟨k, v, rfl, hv.1, hv.2⟩
      · split
        · obtain ⟨hw, hi, es, hev, hmem⟩ :=
            ih {s with events := s.events ++ [Event.run ["vercel", "env", "add", k] (some v)]}
          refine ⟨hw, hi, Event.run ["vercel", "env", "add", k] (some v) :: es, ?_, ?_⟩
          · rw [hev]
            simp
          · intro e he
            rcases List.mem_cons.mp he with h1 | h2
            · exact ⟨k, v, h1, hv.1, hv.2⟩
            · exact hmem e h2
        · refine ⟨rfl, rfl, [Event.run ["vercel", "env", "add", k] (some v)], by simp, ?_⟩
          intro e he
          rw [List.mem_singleton] at he
          subst he
          exact ⟨k, v, rfl, hv.1, hv.2⟩
    · simp only [pushEnvVercel, if_neg hv]
      exact ih s

/-- The prompts and banners emitted by `get_production_env_vars`, in order. -/
def envPromptEvents : List Event :=
  [Event.print "\n💰 Setting up monetization (Stripe)...",
   Event.print "Get your Stripe keys from: https://dashboard.stripe.com/apikeys",
   Event.prompt "Stripe Publishable Key (pk_live_...): ",
   Event.prompt "Stripe Secret Key (sk_live_...): ",
   Event.prompt "Stripe Webhook Secret (whsec_...): ",
   Event.print "\n📊 Optional: Market Data API Keys (press Enter to skip)",
   Event.prompt "Alpha Vantage API Key: ",
   Event.prompt "IEX Cloud API Key: "]

theorem generate_secret_key_step {β : Type} (f : String → M β) (s : St) :
    (generate_secret_key >>= f) s = f s.world.token s := rfl

theorem get_production_env_vars_apply (s : St) :
    get_production_env_vars s =
      ({s with stdin := s.stdin.tail.tail.tail.tail.tail,
               events := s.events ++ envPromptEvents},
       Except.ok (envListOf s.world.token
         (pystrip (s.stdin.headD ""))
         (pystrip (s.stdin.tail.headD ""))
         (pystrip (s.stdin.tail.tail.headD ""))
         (pystrip (s.stdin.tail.tail.tail.headD ""))
         (pystrip (s.stdin.tail.tail.tail.tail.headD "")))) := by
  simp only [get_production_env_vars, envPromptEvents, pyPrint_step, pyInput_step,
    pure_bind_step, generate_secret_key_step, M_pure_apply,
    List.append_assoc, List.cons_append, List.singleton_append, List.nil_append]

theorem bind_apply_of_apply {α β : Type} {m : M α} {s s1 : St} {a : α}
    (h : m s = (s1, Except.ok a)) (f : α → M β) :
    (m >>= f) s = f a s1 := by
  rw [M_bind_apply, h]

theorem live_ne_print (u t : String) (h : t.data.head? ≠ some '🌐') :
    Event.print ("🌐 Your OptionScope is live at: " ++ u) ≠ Event.print t := by
  intro he
  apply h
  have hstr : ("🌐 Your OptionScope is live at: " ++ u) = t := by
    injection he
  rw [← hstr]
  rfl

theorem deploy_vercel_rest_run (s s' : St) (r : Option String)
    (hrun : deploy_vercel_rest s = (s', Except.ok r))
    (hexit : ∀ code out err,
      s.world.oracle ["vercel", "--prod"] = ProcOutcome.ran code out err → code ≠ 0) :
    r = none ∧
    ∃ es, s'.events = s.events ++ es ∧
      (∃ t, Event.print ("❌ Deployment failed: " ++ t) ∈ es) ∧
      (∀ u, Event.print ("🌐 Your OptionScope is live at: " ++ u) ∉ es) := by
  simp only [deploy_vercel_rest] at hrun
  rw [subprocessRun_checked_step] at hrun
  split at hrun
  · simp at hrun
  · split at hrun
    · rw [bind_apply_of_apply (get_production_env_vars_apply _)] at hrun
      rw [pyPrint_step] at hrun
      rw [M_bind_apply] at hrun
      obtain ⟨hw4, hi4, es4, hev4, hmem4⟩ := pushEnvVercel_run
        (envListOf _ _ _ _ _ _)
        _
      revert hw4 hi4 hev4
      cases hp : pushEnvVercel
          (envListOf _ _ _ _ _ _)
          _ with
      | mk s4 r4 =>
        rw [hp] at hrun
        intro hw4 hi4 hev4
        simp only [] at hw4 hi4 hev4
        cases r4 with
        | error e => simp at hrun
        | ok a =>
          simp only [] at hrun
          rw [pyPrint_step] at hrun
          rw [subprocessRun_unchecked_step] at hrun
          split at hrun
          · simp at hrun
          · next code out err heq =>
            have heq2 : s.world.oracle ["vercel", "--prod"] = ProcOutcome.ran code out err := by
              rw [← show s4.world = s.world from hw4]
              exact heq
            have hcode : code ≠ 0 := hexit code out err heq2
            simp only [] at hrun
            rw [if_neg hcode] at hrun
            rw [pyPrint_step, M_pure_apply] at hrun
            rw [Prod.mk.injEq] at hrun
            obtain ⟨hs7, hr⟩ := hrun
            injection hr with hr
            subst hr
            subst hs7
            refine ⟨rfl,
              [Event.run ["cp", "requirements-vercel.txt", "requirements.txt"] none] ++
                envPromptEvents ++ [Event.print "📝 Setting up environment variables..."] ++
                es4 ++ [Event.print "🚀 Deploying to Vercel...",
                  Event.run ["vercel", "--prod"] none,
                  Event.print ("❌ Deployment failed: " ++ err)], ?_, ?_, ?_⟩
            · simp only [hev4, List.append_assoc, List.cons_append, List.singleton_append,
                List.nil_append]
            · exact ⟨err, by simp⟩
            · intro u hu
              simp only [envPromptEvents, List.append_assoc, List.cons_append,
                List.singleton_append, List.nil_append, List.mem_append, List.mem_cons,
                List.not_mem_nil, or_false] at hu
              rcases hu with h | h | h | h | h | h | h | h | h | h | h | h | h | h
              all_goals first
                | exact live_ne_print u _ (by decide) h
                | (injection h with h2
                   have hq : (some '🌐' : Option Char) = some '❌' :=
                     congrArg (fun t : String => t.data.head?) h2
                   exact absurd hq (by decide))
                | (obtain ⟨k, v, hkv, -, -⟩ := hmem4 _ h
                   simp at hkv)
                | (simp at h
                   done)
    · simp at hrun

theorem M_bind_assoc {α β γ : Type} (m : M α) (f : α → M β) (g : β → M γ) (s : St) :
    ((m >>= f) >>= g) s = (m >>= fun a => f a >>= g) s := by
  rw [M_bind_apply, M_bind_apply, M_bind_apply]
  cases hm : m s with
  | mk s1 r1 =>
    cases r1 with
    | ok a =>
      simp only []
      rw [M_bind_apply]
    | error e => rfl

/-- Claim C1 (amended): the Vercel routine is the only deploy routine that
inspects its deploy command's exit status; when `vercel --prod` reports a
non-zero exit and the routine returns normally, the result is `None`, the
failure text is printed, and no URL is printed as live. -/
theorem c1_vercel_failure (s s' : St) (r : Option String)
    (hev : s.events = [])
    (hrun : deploy_vercel s = (s', Except.ok r))
    (hexit : ∀ code out err,
      s.world.oracle ["vercel", "--prod"] = ProcOutcome.ran code out err → code ≠ 0) :
    r = none ∧
    (∃ t, Event.print ("❌ Deployment failed: " ++ t) ∈ s'.events) ∧
    (∀ u, Event.print ("🌐 Your OptionScope is live at: " ++ u) ∉ s'.events) := by
  simp only [deploy_vercel] at hrun
  rw [pyPrint_step] at hrun
  rw [mtryE_checkedRun_step] at hrun
  split at hrun
  · -- version check raised FileNotFoundError: install branch
    simp only [] at hrun
    simp only [pyPrint_step] at hrun
    rw [subprocessRun_checked_step] at hrun
    split at hrun
    · simp at hrun
    · split at hrun
      · simp only [pure_bind_step] at hrun
        obtain ⟨hr, es, hev', hfail, hlive⟩ := deploy_vercel_rest_run _ _ _ hrun hexit
        subst hr
        refine ⟨rfl, ?_, ?_⟩
        · obtain ⟨t, ht⟩ := hfail
          exact ⟨t, by rw [hev']; simp [ht]⟩
        · intro u hu
          rw [hev'] at hu
          simp only [hev, List.nil_append, List.cons_append, List.singleton_append,
            List.mem_append, List.mem_cons, List.not_mem_nil, or_false] at hu
          rcases hu with h | h | h | h | h
          · exact live_ne_print u _ (by decide) h
          · simp at h
          · exact live_ne_print u _ (by decide) h
          · simp at h
          · exact hlive u h
      · simp at hrun
  · -- version check result branch: exit 0 (ok) vs non-zero (install)
    next code out err heq =>
    split at hrun
    · -- version check succeeded
      simp only [] at hrun
      simp only [pure_bind_step] at hrun
      obtain ⟨hr, es, hev', hfail, hlive⟩ := deploy_vercel_rest_run _ _ _ hrun hexit
      subst hr
      refine ⟨rfl, ?_, ?_⟩
      · obtain ⟨t, ht⟩ := hfail
        exact ⟨t, by rw [hev']; simp [ht]⟩
      · intro u hu
        rw [hev'] at hu
        simp only [hev, List.nil_append, List.cons_append, List.singleton_append,
          List.mem_append, List.mem_cons, List.not_mem_nil, or_false] at hu
        rcases hu with h | h | h
        · exact live_ne_print u _ (by decide) h
        · simp at h
        · exact hlive u h
    · -- version check raised CalledProcessError: install branch
      simp only [] at hrun
      simp only [pyPrint_step] at hrun
      rw [subprocessRun_checked_step] at hrun
      split at hrun
      · simp at hrun
      · split at hrun
        · simp only [pure_bind_step] at hrun
          obtain ⟨hr, es, hev', hfail, hlive⟩ := deploy_vercel_rest_run _ _ _ hrun hexit
          subst hr
          refine ⟨rfl, ?_, ?_⟩
          · obtain ⟨t, ht⟩ := hfail
            exact ⟨t, by rw [hev']; simp [ht]⟩
          · intro u hu
            rw [hev'] at hu
            simp only [hev, List.nil_append, List.cons_append, List.singleton_append,
              List.mem_append, List.mem_cons, List.not_mem_nil, or_false] at hu
            rcases hu with h | h | h | h | h
            · exact live_ne_print u _ (by decide) h
            · simp at h
            · exact live_ne_print u _ (by decide) h
            · simp at h
            · exact hlive u h
        · simp at hrun

theorem pyWriteFile_step {β : Type} (path content : String) (f : Unit → M β) (s : St) :
    (pyWriteFile path content >>= f) s =
      f () {s with events := s.events ++ [Event.writeFile path content]} := rfl

/-- A world whose commands all succeed silently and whose Stripe requests
all return the id `obj`. -/
def allOkWorld : World :=
  { oracle := fun _ => ProcOutcome.ran 0 "" "",
    stripeOracle := fun _ => Except.ok "obj",
    token := "tok" }

/-- The message listing the supported platforms, as printed by `deploy`. -/
def supportedMsg : String :=
  "Supported platforms: " ++ String.intercalate ", " (platformsTable.map Prod.fst)

/-- The trace-level behaviour of `deploy` for an unsupported platform name:
only the two banner lines and the two error lines are emitted, and the
dispatcher returns normally. -/
theorem deploy_unsupported_run (p : String) (s : St)
    (h : List.lookup p platformsTable = none) :
    deploy p s = ({s with events := s.events ++
        [Event.print ("🚀 OptionScope Deployment to " ++ pytitle p),
         Event.print eqLine,
         Event.print ("❌ Unsupported platform: " ++ p),
         Event.print supportedMsg]},
      Except.ok ()) := by
  cases s with
  | mk w i ev =>
    simp only [deploy, supportedMsg, M_bind_apply, M_pure_apply, pyPrint_apply, h,
      List.append_assoc, List.cons_append, List.singleton_append, List.nil_append]

/-- Claim C4: a platform name outside the four-entry table makes `deploy`
print the banner, the unsupported-platform line and a line naming all four
valid platforms, invoke no deploy routine (the trace holds nothing but
those four prints), and return normally. -/
theorem c4_unsupported_platform (p : String) (s : St)
    (h : List.lookup p platformsTable = none) :
    deploy p s = ({s with events := s.events ++
        [Event.print ("🚀 OptionScope Deployment to " ++ pytitle p),
         Event.print eqLine,
         Event.print ("❌ Unsupported platform: " ++ p),
         Event.print supportedMsg]},
      Except.ok ()) ∧
    (∀ name ∈ platformsTable.map Prod.fst, strIn name supportedMsg = true) :=
  ⟨deploy_unsupported_run p s h, by decide⟩

/-- A run-of-the-mill start state over `allOkWorld` with no pending input. -/
def sAllOk : St :=
  { world := allOkWorld, stdin := [], events := [] }

/-- Witness for C4 at the concrete platform name `aws`. -/
theorem c4_unsupported_platform_witness :
    deploy "aws" sAllOk = ({sAllOk with events := sAllOk.events ++
        [Event.print ("🚀 OptionScope Deployment to " ++ pytitle "aws"),
         Event.print eqLine,
         Event.print ("❌ Unsupported platform: " ++ "aws"),
         Event.print supportedMsg]},
      Except.ok ()) ∧
    (∀ name ∈ platformsTable.map Prod.fst, strIn name supportedMsg = true) :=
  c4_unsupported_platform "aws" sAllOk rfl

/-- Claim C5: the dispatch table maps each of the four supported names to
exactly its routine and nothing else, and for a supported name (with the
Stripe question declined) `deploy` runs exactly the selected routine
followed by the summary printer. -/
theorem c5_dispatch :
    List.lookup "vercel" platformsTable = some deploy_vercel ∧
    List.lookup "heroku" platformsTable = some deploy_heroku ∧
    List.lookup "railway" platformsTable = some deploy_railway ∧
    List.lookup "render" platformsTable = some deploy_render ∧
    (∀ p routine, List.lookup p platformsTable = some routine →
      (p = "vercel" ∧ routine = deploy_vercel) ∨
      (p = "heroku" ∧ routine = deploy_heroku) ∨
      (p = "railway" ∧ routine = deploy_railway) ∨
      (p = "render" ∧ routine = deploy_render)) ∧
    (∀ p routine s c rest, List.lookup p platformsTable = some routine →
      s.stdin = c :: rest → pylower (pystrip c) ≠ "y" →
      deploy p s = (routine >>= deployAfter)
        {s with stdin := rest,
                events := s.events ++
                  [Event.print ("🚀 OptionScope Deployment to " ++ pytitle p),
                   Event.print eqLine,
                   Event.prompt "Set up Stripe products? (y/N): "]}) := by
  refine ⟨rfl, rfl, rfl, rfl, ?_, ?_⟩
  · intro p routine h
    simp only [platformsTable, List.lookup] at h
    split at h
    · next heq =>
      exact Or.inl ⟨eq_of_beq heq, (Option.some.injEq _ _).mp h.symm⟩
    · split at h
      · next heq =>
        exact Or.inr (Or.inl ⟨eq_of_beq heq, (Option.some.injEq _ _).mp h.symm⟩)
      · split at h
        · next heq =>
          exact Or.inr (Or.inr (Or.inl
            ⟨eq_of_beq heq, (Option.some.injEq _ _).mp h.symm⟩))
        · split at h
          · next heq =>
            exact Or.inr (Or.inr (Or.inr
              ⟨eq_of_beq heq, (Option.some.injEq _ _).mp h.symm⟩))
          · simp [List.lookup] at h
  · intro p routine s c rest h hs hy
    simp only [deploy, h, pyPrint_step, pyInput_step, hs, List.headD, List.tail]
    rw [if_neg hy]
    simp only [pure_bind_step, List.append_assoc, List.cons_append, List.singleton_append,
      List.nil_append]

/-- Witness for C5: the inversion clause and the decomposition clause of the
dispatch theorem applied at the concrete platform `render`. -/
theorem c5_dispatch_witness :
    (("render" = "vercel" ∧ deploy_render = deploy_vercel) ∨
     ("render" = "heroku" ∧ deploy_render = deploy_heroku) ∨
     ("render" = "railway" ∧ deploy_render = deploy_railway) ∨
     ("render" = "render" ∧ deploy_render = deploy_render)) ∧
    deploy "render" { world := allOkWorld, stdin := ["n"], events := [] } =
      (deploy_render >>= deployAfter)
        { world := allOkWorld, stdin := [], events := [] ++
            [Event.print ("🚀 OptionScope Deployment to " ++ pytitle "render"),
             Event.print eqLine,
             Event.prompt "Set up Stripe products? (y/N): "] } :=
  ⟨c5_dispatch.2.2.2.2.1 "render" deploy_render rfl,
   c5_dispatch.2.2.2.2.2 "render" deploy_render
     { world := allOkWorld, stdin := ["n"], events := [] } "n" [] rfl rfl (by decide)⟩

/-- Claim C7: the configuration written by the render routine is well-formed
JSON (our parser recovers exactly the configuration value and consumes the
whole file), its service declares exactly the two environment entries
`FLASK_ENV` and `SECRET_KEY`, and `deploy_render` writes exactly that file
and returns the manual-setup sentinel. -/
theorem c7_render_config :
    parseJ 10000 ((jsonDump renderConfig 0).data) = some (renderConfig, []) ∧
    envKeysOf renderConfig = ["FLASK_ENV", "SECRET_KEY"] ∧
    (∀ s : St, deploy_render s =
      ({s with events := s.events ++
         [Event.print "🚀 Setting up Render deployment...",
          Event.writeFile "render.yaml" (jsonDump renderConfig 0),
          Event.print "✅ render.yaml created!",
          Event.print "🌐 Connect your GitHub repo to Render dashboard to deploy"]},
       Except.ok (some "Manual setup required"))) := by
  refine ⟨by rfl, by rfl, ?_⟩
  intro s
  cases s with
  | mk w i ev =>
    simp only [deploy_render, pyPrint_step, pyWriteFile_step, M_pure_apply,
      List.append_assoc, List.cons_append, List.singleton_append, List.nil_append]

/-- Claim C9: every mapping returned by `get_production_env_vars` holds the
five unconditional keys (with `FLASK_ENV` equal to `production`,
`SECRET_KEY` equal to this run's generated token, and the three Stripe keys
present even when their stripped answers are blank), and holds each optional
market-data key exactly when its stripped answer is non-blank. -/
theorem c9_env_mapping (s : St) (sp ss sw av iex : String) (rest : List String)
    (h : s.stdin = sp :: ss :: sw :: av :: iex :: rest)
    (s' : St) (m : List (String × String))
    (hrun : get_production_env_vars s = (s', Except.ok m)) :
    List.lookup "FLASK_ENV" m = some "production" ∧
    List.lookup "SECRET_KEY" m = some s.world.token ∧
    List.lookup "STRIPE_PUBLISHABLE_KEY" m = some (pystrip sp) ∧
    List.lookup "STRIPE_SECRET_KEY" m = some (pystrip ss) ∧
    List.lookup "STRIPE_WEBHOOK_SECRET" m = some (pystrip sw) ∧
    List.lookup "ALPHA_VANTAGE_API_KEY" m =
      (if pystrip av = "" then none else some (pystrip av)) ∧
    List.lookup "IEX_API_KEY" m =
      (if pystrip iex = "" then none else some (pystrip iex)) := by
  rw [get_production_env_vars_apply] at hrun
  simp only [h, List.headD, List.tail, Prod.mk.injEq] at hrun
  obtain ⟨-, hm⟩ := hrun
  injection hm with hm
  subst hm
  by_cases ha : pystrip av = "" <;> by_cases hi : pystrip iex = "" <;>
    simp only [envListOf, ha, hi, if_pos, if_neg, ite_true, ite_false, ne_eq,
      not_true_eq_false, not_false_eq_true] <;>
    refine ⟨rfl, rfl, rfl, rfl, rfl, ?_, ?_⟩ <;>
    simp [ha, hi, List.lookup]

/-- Start state for the C9 witness: Stripe answers given, Alpha Vantage
left blank, IEX key supplied. -/
def c9St : St :=
  { world := allOkWorld, stdin := ["pk", "sk", "whsec", "", "iexkey"], events := [] }

/-- The mapping `get_production_env_vars` produces from `c9St`. -/
def c9Map : List (String × String) :=
  [("FLASK_ENV", "production"), ("SECRET_KEY", "tok"),
   ("STRIPE_PUBLISHABLE_KEY", "pk"), ("STRIPE_SECRET_KEY", "sk"),
   ("STRIPE_WEBHOOK_SECRET", "whsec"), ("IEX_API_KEY", "iexkey")]

/-- Witness for C9 at the concrete run from `c9St`. -/
theorem c9_env_mapping_witness :
    List.lookup "FLASK_ENV" c9Map = some "production" ∧
    List.lookup "SECRET_KEY" c9Map = some c9St.world.token ∧
    List.lookup "STRIPE_PUBLISHABLE_KEY" c9Map = some (pystrip "pk") ∧
    List.lookup "STRIPE_SECRET_KEY" c9Map = some (pystrip "sk") ∧
    List.lookup "STRIPE_WEBHOOK_SECRET" c9Map = some (pystrip "whsec") ∧
    List.lookup "ALPHA_VANTAGE_API_KEY" c9Map =
      (if pystrip "" = "" then none else some (pystrip "")) ∧
    List.lookup "IEX_API_KEY" c9Map =
      (if pystrip "iexkey" = "" then none else some (pystrip "iexkey")) :=
  c9_env_mapping c9St "pk" "sk" "whsec" "" "iexkey" [] rfl
    (get_production_env_vars c9St).1 c9Map rfl

/-- Start state for the C2 counterexample: the Alpha Vantage prompt is
answered with the placeholder value. -/
def c2St : St :=
  { world := allOkWorld, stdin := ["", "", "", "your-key-here", ""], events := [] }

/-- Counterexample to C2 as stated: answering the optional Alpha Vantage
prompt with the placeholder `your-key-here` puts the placeholder into the
mapping returned by `get_production_env_vars`. -/
theorem c2_counterexample :
    (get_production_env_vars c2St).2 =
      Except.ok
        [("FLASK_ENV", "production"), ("SECRET_KEY", "tok"),
         ("STRIPE_PUBLISHABLE_KEY", ""), ("STRIPE_SECRET_KEY", ""),
         ("STRIPE_WEBHOOK_SECRET", ""),
         ("ALPHA_VANTAGE_API_KEY", "your-key-here")] ∧
    List.lookup "ALPHA_VANTAGE_API_KEY"
        [("FLASK_ENV", "production"), ("SECRET_KEY", "tok"),
         ("STRIPE_PUBLISHABLE_KEY", ""), ("STRIPE_SECRET_KEY", ""),
         ("STRIPE_WEBHOOK_SECRET", ""),
         ("ALPHA_VANTAGE_API_KEY", "your-key-here")] = some "your-key-here" := by
  exact ⟨rfl, rfl⟩

/-- Claim C2 (amended): a blank optional market-data answer leaves its key
out of the mapping, and while a placeholder answer can enter the mapping,
the Vercel push loop never forwards the placeholder value (or any blank
value) to the platform. -/
theorem c2_blank_absent_placeholder_never_pushed :
    (∀ (s : St) (sp ss sw av iex : String) (rest : List String) (s' : St)
       (m : List (String × String)),
      s.stdin = sp :: ss :: sw :: av :: iex :: rest →
      get_production_env_vars s = (s', Except.ok m) →
      (pystrip av = "" → List.lookup "ALPHA_VANTAGE_API_KEY" m = none) ∧
      (pystrip iex = "" → List.lookup "IEX_API_KEY" m = none)) ∧
    (∀ (kvs : List (String × String)) (s : St) (k : String),
      s.events = [] →
      Event.run ["vercel", "env", "add", k] (some "your-key-here") ∉
        (pushEnvVercel kvs s).1.events) := by
  constructor
  · intro s sp ss sw av iex rest s' m h hrun
    rw [get_production_env_vars_apply] at hrun
    simp only [h, List.headD, List.tail, Prod.mk.injEq] at hrun
    obtain ⟨-, hm⟩ := hrun
    injection hm with hm
    subst hm
    constructor
    · intro ha
      by_cases hi : pystrip iex = "" <;>
        simp [envListOf, ha, hi, List.lookup]
    · intro hi
      by_cases ha : pystrip av = "" <;>
        simp [envListOf, ha, hi, List.lookup]
  · intro kvs s k hev hmem
    obtain ⟨-, -, es, hes, hall⟩ := pushEnvVercel_run kvs s
    rw [hes, hev, List.nil_append] at hmem
    obtain ⟨k', v', hkv, -, hv'⟩ := hall _ hmem
    have : some "your-key-here" = some v' := by
      injection hkv.symm with h1 h2
      exact h2.symm
    injection this with this
    exact hv' this.symm

/-- Start state for the C2 witness: all five prompts answered blank. -/
def c2wSt : St :=
  { world := allOkWorld, stdin := ["", "", "", "", ""], events := [] }

/-- The mapping `get_production_env_vars` produces from `c2wSt`. -/
def c2wMap : List (String × String) :=
  [("FLASK_ENV", "production"), ("SECRET_KEY", "tok"),
   ("STRIPE_PUBLISHABLE_KEY", ""), ("STRIPE_SECRET_KEY", ""),
   ("STRIPE_WEBHOOK_SECRET", "")]

/-- Witness for the amended C2 at concrete inputs. -/
theorem c2_blank_absent_placeholder_never_pushed_witness :
    ((pystrip "" = "" → List.lookup "ALPHA_VANTAGE_API_KEY" c2wMap = none) ∧
     (pystrip "" = "" → List.lookup "IEX_API_KEY" c2wMap = none)) ∧
    Event.run ["vercel", "env", "add", "STRIPE_SECRET_KEY"] (some "your-key-here") ∉
      (pushEnvVercel [("STRIPE_SECRET_KEY", "your-key-here")] sAllOk).1.events :=
  ⟨c2_blank_absent_placeholder_never_pushed.1 c2wSt "" "" "" "" "" []
     (get_production_env_vars c2wSt).1 c2wMap rfl rfl,
   c2_blank_absent_placeholder_never_pushed.2
     [("STRIPE_SECRET_KEY", "your-key-here")] sAllOk "STRIPE_SECRET_KEY" rfl⟩

/-- Claim C10: a key that strips to blank makes `setup_stripe_products`
print the skip notice and return at once: no Stripe request is issued, the
input prompt is the only other effect, and no exception is raised. -/
theorem c10_blank_key_skips (s : St) (c : String) (rest : List String)
    (h : s.stdin = c :: rest) (hblank : pystrip c = "") :
    setup_stripe_products s =
      ({s with stdin := rest, events := s.events ++
         [Event.print "\n💳 Setting up Stripe products...",
          Event.prompt "Enter your Stripe Secret Key: ",
          Event.print "⚠️  Skipping Stripe setup. You can do this later in Stripe Dashboard."]},
       Except.ok ()) := by
  simp only [setup_stripe_products, pyPrint_step, pyInput_step, h, List.headD, List.tail]
  rw [if_pos hblank]
  simp only [pyPrint_step, M_pure_apply, List.append_assoc, List.cons_append,
    List.singleton_append, List.nil_append]

/-- Start state for the C10 witness: the key prompt answered with spaces. -/
def c10St : St :=
  { world := allOkWorld, stdin := ["   "], events := [] }

/-- Witness for C10 at a concrete whitespace-only key. -/
theorem c10_blank_key_skips_witness :
    setup_stripe_products c10St =
      ({c10St with stdin := [], events := c10St.events ++
         [Event.print "\n💳 Setting up Stripe products...",
          Event.prompt "Enter your Stripe Secret Key: ",
          Event.print "⚠️  Skipping Stripe setup. You can do this later in Stripe Dashboard."]},
       Except.ok ()) :=
  c10_blank_key_skips c10St "   " [] rfl (by decide)

/-- Pure mirror of the `try` block of `setup_stripe_products` (lines
216-264): the Stripe requests attempted in order, given the provider's
responses, and the message of the first failing request, if any.  Each
price request uses the product id returned for its tier, and the sequence
stops at the first error. -/
def stripeSim (o : StripeCall → Except String String) :
    List StripeCall × Option String :=
  let c1 := StripeCall.productCreate "OptionScope Pro"
    "Advanced options trading analytics for serious traders"
  match o c1 with
  | Except.error m => ([c1], some m)
  | Except.ok p1 =>
    let c2 := StripeCall.priceCreate p1 2999 "usd" "month"
    match o c2 with
    | Except.error m => ([c1, c2], some m)
    | Except.ok _ =>
      let c3 := StripeCall.priceCreate p1 29999 "usd" "year"
      match o c3 with
      | Except.error m => ([c1, c2, c3], some m)
      | Except.ok _ =>
        let c4 := StripeCall.productCreate "OptionScope Enterprise"
          "Full-featured solution for institutions"
        match o c4 with
        | Except.error m => ([c1, c2, c3, c4], some m)
        | Except.ok p2 =>
          let c5 := StripeCall.priceCreate p2 9999 "usd" "month"
          match o c5 with
          | Except.error m => ([c1, c2, c3, c4, c5], some m)
          | Except.ok _ =>
            let c6 := StripeCall.priceCreate p2 99999 "usd" "year"
            match o c6 with
            | Except.error m => ([c1, c2, c3, c4, c5, c6], some m)
            | Except.ok _ => ([c1, c2, c3, c4, c5, c6], none)

/-- The Stripe requests recorded in a trace, in order. -/
def stripeCalls (es : List Event) : List StripeCall :=
  es.filterMap fun e =>
    match e with
    | Event.stripe c => some c
    | _ => none

theorem mtryE_step {α β : Type} (body : M α) (f : Except PyErr α → M β) (s : St) :
    (mtryE body >>= f) s =
      match body s with
      | (s1, Except.ok a) => f (Except.ok a) s1
      | (s1, Except.error e) => f (Except.error e) s1 := by
  rw [M_bind_apply, mtryE_apply]
  cases body s with
  | mk s1 r1 => cases r1 <;> rfl

/-- Claim C6: with a non-blank secret key, `setup_stripe_products` attempts
the two product creations and their four price creations in order, issues
exactly the requests `stripeSim` describes (so the first provider error
halts all remaining creation calls and nothing — in particular no deletion
— follows them), always returns normally, prints the provider error when
one occurs and the success banner otherwise. -/
theorem c6_stripe_attempts (s : St) (c : String) (rest : List String)
    (h : s.stdin = c :: rest) (hkey : pystrip c ≠ "") :
    (setup_stripe_products s).2 = Except.ok () ∧
    stripeCalls (setup_stripe_products s).1.events =
      stripeCalls s.events ++ (stripeSim s.world.stripeOracle).1 ∧
    (∀ m, (stripeSim s.world.stripeOracle).2 = some m →
      Event.print ("❌ Error setting up Stripe: " ++ m) ∈
        (setup_stripe_products s).1.events) ∧
    ((stripeSim s.world.stripeOracle).2 = none →
      Event.print "✅ Stripe products created successfully!" ∈
        (setup_stripe_products s).1.events) := by
  cases h1 : s.world.stripeOracle (StripeCall.productCreate "OptionScope Pro"
      "Advanced options trading analytics for serious traders") with
  | error m =>
    refine ⟨?_, ?_, ?_, ?_⟩ <;>
      simp [setup_stripe_products, pyPrint_step, pyInput_step, h, hkey,
        mtryE_step, stripeRequest_step, pyPrint_apply, h1, M_pure_apply,
        pure_bind_step, errText, stripeSim, stripeCalls, List.filterMap_append]
  | ok p1 =>
    cases h2 : s.world.stripeOracle (StripeCall.priceCreate p1 2999 "usd" "month") with
    | error m =>
      refine ⟨?_, ?_, ?_, ?_⟩ <;>
        simp [setup_stripe_products, pyPrint_step, pyInput_step, h, hkey,
          mtryE_step, stripeRequest_step, pyPrint_apply, h1, h2, M_pure_apply,
          pure_bind_step, errText, stripeSim, stripeCalls, List.filterMap_append]
    | ok x2 =>
      cases h3 : s.world.stripeOracle (StripeCall.priceCreate p1 29999 "usd" "year") with
      | error m =>
        refine ⟨?_, ?_, ?_, ?_⟩ <;>
          simp [setup_stripe_products, pyPrint_step, pyInput_step, h, hkey,
            mtryE_step, stripeRequest_step, pyPrint_apply, h1, h2, h3, M_pure_apply,
            pure_bind_step, errText, stripeSim, stripeCalls, List.filterMap_append]
      | ok x3 =>
        cases h4 : s.world.stripeOracle (StripeCall.productCreate "OptionScope Enterprise"
            "Full-featured solution for institutions") with
        | error m =>
          refine ⟨?_, ?_, ?_, ?_⟩ <;>
            simp [setup_stripe_products, pyPrint_step, pyInput_step, h, hkey,
              mtryE_step, stripeRequest_step, pyPrint_apply, h1, h2, h3, h4, M_pure_apply,
              pure_bind_step, errText, stripeSim, stripeCalls, List.filterMap_append]
        | ok p2 =>
          cases h5 : s.world.stripeOracle (StripeCall.priceCreate p2 9999 "usd" "month") with
          | error m =>
            refine ⟨?_, ?_, ?_, ?_⟩ <;>
              simp [setup_stripe_products, pyPrint_step, pyInput_step, h, hkey,
                mtryE_step, stripeRequest_step, pyPrint_apply, h1, h2, h3, h4, h5,
                M_pure_apply, pure_bind_step, errText, stripeSim, stripeCalls,
                List.filterMap_append]
          | ok x5 =>
            cases h6 : s.world.stripeOracle (StripeCall.priceCreate p2 99999 "usd" "year") with
            | error m =>
              refine ⟨?_, ?_, ?_, ?_⟩ <;>
                simp [setup_stripe_products, pyPrint_step, pyInput_step, h, hkey,
                  mtryE_step, stripeRequest_step, pyPrint_apply, h1, h2, h3, h4, h5, h6,
                  M_pure_apply, pure_bind_step, errText, stripeSim, stripeCalls,
                  List.filterMap_append]
            | ok x6 =>
              refine ⟨?_, ?_, ?_, ?_⟩ <;>
                simp [setup_stripe_products, pyPrint_step, pyInput_step, h, hkey,
                  mtryE_step, stripeRequest_step, pyPrint_apply, h1, h2, h3, h4, h5, h6,
                  M_pure_apply, pure_bind_step, errText, stripeSim, stripeCalls,
                  List.filterMap_append]

/-- Start state for the C6 witness: a non-blank secret key over a provider
that accepts every request. -/
def c6St : St :=
  { world := allOkWorld, stdin := ["sk_live_abc"], events := [] }

/-- Witness for C6 at a concrete all-success run. -/
theorem c6_stripe_attempts_witness :
    (setup_stripe_products c6St).2 = Except.ok () ∧
    stripeCalls (setup_stripe_products c6St).1.events =
      stripeCalls c6St.events ++ (stripeSim c6St.world.stripeOracle).1 ∧
    (∀ m, (stripeSim c6St.world.stripeOracle).2 = some m →
      Event.print ("❌ Error setting up Stripe: " ++ m) ∈
        (setup_stripe_products c6St).1.events) ∧
    ((stripeSim c6St.world.stripeOracle).2 = none →
      Event.print "✅ Stripe products created successfully!" ∈
        (setup_stripe_products c6St).1.events) :=
  c6_stripe_attempts c6St "sk_live_abc" [] rfl (by decide)

/-- Claim C8 (amended): with no command-line argument the numbered menu
selects the platform from the stripped input; a stripped input other than
`1`-`4` selects `vercel`, and `pymain` hands the selected platform straight
to `deploy` after the six menu lines and the prompt. -/
theorem c8_menu_selection :
    (∀ c, pystrip c ≠ "1" → pystrip c ≠ "2" → pystrip c ≠ "3" → pystrip c ≠ "4" →
      menuSelect c = "vercel") ∧
    menuSelect "1" = "vercel" ∧ menuSelect "2" = "heroku" ∧
    menuSelect "3" = "railway" ∧ menuSelect "4" = "render" ∧
    (∀ (s : St) (c : String) (rest : List String), s.stdin = c :: rest →
      pymain ["deploy.py"] s =
        deploy (menuSelect c)
          {s with stdin := rest, events := s.events ++
            [Event.print "🚀 OptionScope Deployment",
             Event.print "Choose deployment platform:",
             Event.print "1. Vercel (Recommended - Free tier)",
             Event.print "2. Heroku (Full-stack)",
             Event.print "3. Railway (Modern)",
             Event.print "4. Render (Simple)",
             Event.prompt "Enter choice (1-4): "]}) := by
  refine ⟨?_, rfl, rfl, rfl, rfl, ?_⟩
  · intro c h1 h2 h3 h4
    have e1 : (pystrip c == "1") = false := beq_eq_false_iff_ne.mpr h1
    have e2 : (pystrip c == "2") = false := beq_eq_false_iff_ne.mpr h2
    have e3 : (pystrip c == "3") = false := beq_eq_false_iff_ne.mpr h3
    have e4 : (pystrip c == "4") = false := beq_eq_false_iff_ne.mpr h4
    simp [menuSelect, menuTable, List.lookup, e1, e2, e3, e4]
  · intro s c rest h
    simp only [pymain]
    rw [if_neg (by decide)]
    simp only [pyPrint_step, pyInput_step, pure_bind_step, h, List.headD, List.tail,
      List.append_assoc, List.cons_append, List.singleton_append, List.nil_append]

/-- Start state for the C8 counterexample: menu answered `" 2"` (a space
then `2`), Stripe question declined, Heroku CLI missing so the routine
stops early. -/
def c8St : St :=
  { world :=
      { oracle := fun _ => ProcOutcome.notFound,
        stripeOracle := fun _ => Except.ok "obj",
        token := "tok" },
    stdin := [" 2", "n"],
    events := [] }

/-- Counterexample to C8 as stated: the input `" 2"` differs from each of
`1`-`4`, yet it selects `heroku` (the stripped value), not the `vercel`
default — the Heroku routine's banner appears in the trace. -/
theorem c8_counterexample :
    (" 2" ≠ "1" ∧ " 2" ≠ "2" ∧ " 2" ≠ "3" ∧ " 2" ≠ "4") ∧
    menuSelect " 2" = "heroku" ∧
    Event.print "🚀 Deploying OptionScope to Heroku..." ∈
      (pymain ["deploy.py"] c8St).1.events := by
  refine ⟨by decide, rfl, by decide⟩

/-- Witness for the amended C8: a junk input selects `vercel`, and `pymain`
with no argument dispatches through `menuSelect`. -/
theorem c8_menu_selection_witness :
    menuSelect "zzz" = "vercel" ∧
    pymain ["deploy.py"] c8St =
      deploy (menuSelect " 2")
        {c8St with stdin := ["n"], events := c8St.events ++
          [Event.print "🚀 OptionScope Deployment",
           Event.print "Choose deployment platform:",
           Event.print "1. Vercel (Recommended - Free tier)",
           Event.print "2. Heroku (Full-stack)",
           Event.print "3. Railway (Modern)",
           Event.print "4. Render (Simple)",
           Event.prompt "Enter choice (1-4): "]} :=
  ⟨c8_menu_selection.1 "zzz" (by decide) (by decide) (by decide) (by decide),
   c8_menu_selection.2.2.2.2.2 c8St " 2" ["n"] rfl⟩

/-- The trace-level behaviour of `deploy_heroku` when the Heroku CLI is
missing: the not-found notice is printed and the routine returns `None`
normally. -/
theorem deploy_heroku_cli_missing (s : St)
    (h : s.world.oracle ["heroku", "--version"] = ProcOutcome.notFound) :
    deploy_heroku s =
      ({s with events := s.events ++
         [Event.print "🚀 Deploying OptionScope to Heroku...",
          Event.run ["heroku", "--version"] none,
          Event.print "❌ Heroku CLI not found. Please install it first."]},
       Except.ok none) := by
  simp only [deploy_heroku, pyPrint_step]
  rw [mtryE_checkedRun_step]
  simp only [h, pyPrint_step, M_pure_apply, List.append_assoc, List.cons_append,
    List.singleton_append, List.nil_append]

/-- Claim C3 (amended): the failures the script checks for itself print a
message and return normally — an unsupported platform name, and a missing
Heroku CLI (which yields a `None` result).  Failures of commands run with
`check=True` instead raise an uncaught `CalledProcessError` (see the
counterexample), terminating the process with a non-zero exit. -/
theorem c3_checked_failures_return (p : String) (s t : St)
    (hp : List.lookup p platformsTable = none)
    (ht : t.world.oracle ["heroku", "--version"] = ProcOutcome.notFound) :
    deploy p s = ({s with events := s.events ++
        [Event.print ("🚀 OptionScope Deployment to " ++ pytitle p),
         Event.print eqLine,
         Event.print ("❌ Unsupported platform: " ++ p),
         Event.print supportedMsg]},
      Except.ok ()) ∧
    deploy_heroku t =
      ({t with events := t.events ++
         [Event.print "🚀 Deploying OptionScope to Heroku...",
          Event.run ["heroku", "--version"] none,
          Event.print "❌ Heroku CLI not found. Please install it first."]},
       Except.ok none) :=
  ⟨deploy_unsupported_run p s hp, deploy_heroku_cli_missing t ht⟩

/-- Witness for the amended C3 at a concrete platform name and state. -/
theorem c3_checked_failures_return_witness :
    deploy "aws" c8St = ({c8St with events := c8St.events ++
        [Event.print ("🚀 OptionScope Deployment to " ++ pytitle "aws"),
         Event.print eqLine,
         Event.print ("❌ Unsupported platform: " ++ "aws"),
         Event.print supportedMsg]},
      Except.ok ()) ∧
    deploy_heroku c8St =
      ({c8St with events := c8St.events ++
         [Event.print "🚀 Deploying OptionScope to Heroku...",
          Event.run ["heroku", "--version"] none,
          Event.print "❌ Heroku CLI not found. Please install it first."]},
       Except.ok none) :=
  c3_checked_failures_return "aws" c8St c8St rfl rfl


theorem get_production_env_vars_step {β : Type} (f : List (String × String) → M β) (s : St) :
    (get_production_env_vars >>= f) s =
      f (envListOf s.world.token
          (pystrip (s.stdin.headD ""))
          (pystrip (s.stdin.tail.headD ""))
          (pystrip (s.stdin.tail.tail.headD ""))
          (pystrip (s.stdin.tail.tail.tail.headD ""))
          (pystrip (s.stdin.tail.tail.tail.tail.headD "")))
        {s with stdin := s.stdin.tail.tail.tail.tail.tail,
                events := s.events ++ envPromptEvents} := by
  rw [M_bind_apply, get_production_env_vars_apply]

/-- The world of the push-failure runs. -/
def cxWorld : World :=
  { oracle := fun cmd =>
      if cmd = ["git", "push", "heroku", "main"] then
        ProcOutcome.ran 1 "" "error: failed to push some refs"
      else ProcOutcome.ran 0 "" "",
    stripeOracle := fun _ => Except.ok "obj",
    token := "tok" }

theorem deploy_heroku_push_fails (ev : List Event) (rest : List String) :
    deploy_heroku { world := cxWorld, stdin := "" :: "" :: "" :: "" :: "" :: "" :: rest,
                    events := ev } =
      ({ world := cxWorld, stdin := rest, events := ev ++
          [Event.print "🚀 Deploying OptionScope to Heroku...",
           Event.run ["heroku", "--version"] none,
           Event.prompt "Enter Heroku app name (or press Enter for auto-generated): ",
           Event.run ["heroku", "create"] none,
           Event.run ["heroku", "addons:create", "heroku-postgresql:hobby-dev"] none,
           Event.print "\n💰 Setting up monetization (Stripe)...",
           Event.print "Get your Stripe keys from: https://dashboard.stripe.com/apikeys",
           Event.prompt "Stripe Publishable Key (pk_live_...): ",
           Event.prompt "Stripe Secret Key (sk_live_...): ",
           Event.prompt "Stripe Webhook Secret (whsec_...): ",
           Event.print "\n📊 Optional: Market Data API Keys (press Enter to skip)",
           Event.prompt "Alpha Vantage API Key: ",
           Event.prompt "IEX Cloud API Key: ",
           Event.run ["heroku", "config:set", "FLASK_ENV=production"] none,
           Event.run ["heroku", "config:set", "SECRET_KEY=tok"] none,
           Event.run ["git", "add", "."] none,
           Event.run ["git", "commit", "-m", "Deploy OptionScope"] none,
           Event.run ["git", "push", "heroku", "main"] none]},
       Except.error (PyErr.calledProcessError ["git", "push", "heroku", "main"] 1)) := by
  simp [deploy_heroku, pyPrint_step, pyInput_step, pure_bind_step, mtryE_step,
    subprocessRun_checked_step, subprocessRun_unchecked_step, get_production_env_vars_step,
    M_bind_assoc, pushEnvHeroku, envListOf, cxWorld, M_pure_apply, envPromptEvents,
    show pystrip "" = "" from rfl]

/-- Start state for the C1 counterexample: the Heroku routine's prompts all
answered blank over `cxWorld`. -/
def c1St : St :=
  { world := cxWorld, stdin := ["", "", "", "", "", ""], events := [] }

theorem c1_counterexample :
    (deploy_heroku c1St).2 =
      Except.error (PyErr.calledProcessError ["git", "push", "heroku", "main"] 1) ∧
    ((deploy_heroku c1St).1.events.all fun e =>
      match e with
      | Event.print m => !(strIn "❌ Deployment failed" m)
      | _ => true) = true := by
  have h : deploy_heroku c1St = _ := deploy_heroku_push_fails [] []
  rw [h]
  exact ⟨rfl, by decide⟩

/-- Start state for the C3 counterexample: argument `heroku`, Stripe
question declined, all prompts blank, over `cxWorld`. -/
def c3St : St :=
  { world := cxWorld, stdin := ["n", "", "", "", "", "", ""], events := [] }

theorem c3_counterexample :
    (pymain ["deploy.py", "heroku"] c3St).2 =
      Except.error (PyErr.calledProcessError ["git", "push", "heroku", "main"] 1) := by
  have h : deploy_heroku
      { world := cxWorld, stdin := ["", "", "", "", "", ""],
        events := [Event.print ("🚀 OptionScope Deployment to " ++ pytitle "heroku"),
                   Event.print eqLine,
                   Event.prompt "Set up Stripe products? (y/N): "] } = _ :=
    deploy_heroku_push_fails _ []
  simp only [pymain]
  rw [if_pos (by decide)]
  simp only [pure_bind_step, show (["deploy.py", "heroku"].getD 1 "") = "heroku" from rfl,
    show pylower "heroku" = "heroku" from rfl, deploy,
    show List.lookup "heroku" platformsTable = some deploy_heroku from rfl,
    pyPrint_step, pyInput_step, c3St]
  rw [if_neg (by decide)]
  simp only [pure_bind_step, M_bind_apply, List.nil_append, List.cons_append,
    List.singleton_append, List.append_assoc, List.headD, List.tail]
  rw [h]

/-- The world of the C1 witness run: every command succeeds except
`vercel --prod`, which exits 1 with `boom` on stderr. -/
def vxWorld : World :=
  { oracle := fun cmd =>
      if cmd = ["vercel", "--prod"] then ProcOutcome.ran 1 "" "boom"
      else ProcOutcome.ran 0 "" "",
    stripeOracle := fun _ => Except.ok "obj",
    token := "tok" }

/-- Start state of the C1 witness run. -/
def v1St : St :=
  { world := vxWorld, stdin := [], events := [] }

/-- Final state of the C1 witness run. -/
def v1Final : St :=
  { world := vxWorld, stdin := [], events :=
      [Event.print "🚀 Deploying OptionScope to Vercel...",
       Event.run ["vercel", "--version"] none,
       Event.run ["cp", "requirements-vercel.txt", "requirements.txt"] none,
       Event.print "\n💰 Setting up monetization (Stripe)...",
       Event.print "Get your Stripe keys from: https://dashboard.stripe.com/apikeys",
       Event.prompt "Stripe Publishable Key (pk_live_...): ",
       Event.prompt "Stripe Secret Key (sk_live_...): ",
       Event.prompt "Stripe Webhook Secret (whsec_...): ",
       Event.print "\n📊 Optional: Market Data API Keys (press Enter to skip)",
       Event.prompt "Alpha Vantage API Key: ",
       Event.prompt "IEX Cloud API Key: ",
       Event.print "📝 Setting up environment variables...",
       Event.run ["vercel", "env", "add", "FLASK_ENV"] (some "production"),
       Event.run ["vercel", "env", "add", "SECRET_KEY"] (some "tok"),
       Event.print "🚀 Deploying to Vercel...",
       Event.run ["vercel", "--prod"] none,
       Event.print ("❌ Deployment failed: " ++ "boom")] }

/-- The C1 witness run evaluated: `vercel --prod` fails, the routine prints
the failure and returns `None`. -/
theorem deploy_vercel_prod_fails :
    deploy_vercel v1St = (v1Final, Except.ok none) := by
  simp [deploy_vercel, deploy_vercel_rest, pyPrint_step, pyInput_step, pure_bind_step,
    mtryE_step, subprocessRun_checked_step, subprocessRun_unchecked_step,
    get_production_env_vars_step, M_bind_assoc, pushEnvVercel, envListOf, vxWorld,
    v1St, v1Final, M_pure_apply, envPromptEvents, show pystrip "" = "" from rfl,
    findVercelUrl]

/-- Witness for C1 (amended) at the concrete failing run from `v1St`. -/
theorem c1_vercel_failure_witness :
    (none : Option String) = none ∧
    (∃ t, Event.print ("❌ Deployment failed: " ++ t) ∈ v1Final.events) ∧
    (∀ u, Event.print ("🌐 Your OptionScope is live at: " ++ u) ∉ v1Final.events) := by
  refine c1_vercel_failure v1St v1Final none rfl deploy_vercel_prod_fails ?_
  intro code out err hh
  have hh2 : ProcOutcome.ran 1 "" "boom" = ProcOutcome.ran code out err := hh
  injection hh2 with e1 e2 e3
  subst e1
  decide
